import Mathlib

/-!
# Eclipse Telegram balance notifier — shallow embedding of `src/main.js`

The program keeps three module-level JavaScript `Map`s
(`userAddresses`, `lastBalances`, `knownTokenAccounts`), probes the ledger
for a token balance per tracked address (`getTokenBalance`), seeds the
store on `/add` and at startup, and diffs balances in `monitorBalances`.

Modelling choices:
* JS `Map`s become insertion-ordered association lists (`mapGet`/`mapSet`
  mirror `Map.get`/`Map.set`: `set` replaces in place, appends when new).
* JS `Set`s become duplicate-free insertion-ordered lists (`setAdd`).
* The stored balance value may be JS `null` (the `/add` and seed paths
  store the probe result unconditionally), so `lastBalances` values are
  `Option ℚ`; `lastBalances.get(a) || 0` becomes a double `getD`.
* Raw on-chain amounts are `u64` integers; `Number(tokenAccount.amount)`
  rounds to the nearest double (53-bit significand, ties to even), which
  `jsNumberOfNat` reproduces for the `u64` range; the division by
  `Math.pow(10, 6)` is modelled as exact rational division (the theorems
  below never rely on its injectivity).
* External effects (ledger fetch, Telegram sends) are oracle inputs:
  `FetchResult` is the outcome of `getAccount`, and the `Bool` fields of
  the environment records say whether a given `sendMessage`/`reply`
  resolves or rejects (a rejection is a thrown exception at the `await`).
* `console.log` lines that witness control flow (`Fetching balance…`,
  `New token account detected…`) and every outbound Telegram message are
  recorded as `Event`s, so traces expose which code paths ran.
-/

abbrev Address := String

abbrev ChatId := Nat

abbrev TokenAccount := String

/-- JS `Map.get`: value of the first (only) entry with the given key. -/
def mapGet {K V : Type} [DecidableEq K] : List (K × V) → K → Option V
  | [], _ => none
  | (k', v) :: rest, k => if k' = k then some v else mapGet rest k

/-- JS `Map.set`: replace the entry in place, or append a new one. -/
def mapSet {K V : Type} [DecidableEq K] : List (K × V) → K → V → List (K × V)
  | [], k, v => [(k, v)]
  | (k', v') :: rest, k, v =>
      if k' = k then (k, v) :: rest else (k', v') :: mapSet rest k v

/-- JS `Set.add`: append if absent, keep insertion order. -/
def setAdd {A : Type} [DecidableEq A] (s : List A) (a : A) : List A :=
  if a ∈ s then s else s ++ [a]

/-- Floor of log₂ with explicit recursion depth; `floorLog2 64 n` is exact
for every `n < 2 ^ 64`, which covers `u64` token amounts. -/
def floorLog2 : Nat → Nat → Nat
  | 0, _ => 0
  | fuel + 1, n => if 2 ≤ n then floorLog2 fuel (n / 2) + 1 else 0

/-- `Number(bigint)` in JS: exact below `2 ^ 53`, otherwise rounded to the
nearest multiple of the trailing power of two (53-bit significand, ties to
even). Faithful on the `u64` range of SPL token amounts. -/
def jsNumberOfNat (n : Nat) : Nat :=
  if n ≤ 2 ^ 53 then n
  else
    let s := floorLog2 64 n - 52
    let q := n / 2 ^ s
    let r := n % 2 ^ s
    if 2 * r < 2 ^ s then q * 2 ^ s
    else if 2 ^ s < 2 * r then (q + 1) * 2 ^ s
    else (if q % 2 = 0 then q else q + 1) * 2 ^ s

/-- Line 94: `balance = Number(tokenAccount.amount) / Math.pow(10, 6)`. -/
def normalizeBalance (raw : Nat) : ℚ := (jsNumberOfNat raw : ℚ) / 1000000

/-- Outcome of the `getAccount` RPC call inside `getTokenBalance`:
success with a raw `u64` amount, `TokenAccountNotFoundError`, or any
other rejection (network/RPC error, rethrown at line 116). -/
inductive FetchResult where
  | found (rawAmount : Nat)
  | notFound
  | error
deriving DecidableEq

/-- Observable occurrences: control-flow log lines and outbound
Telegram messages, in program order. -/
inductive Event where
  /-- Line 66: `console.log('Fetching balance for address: …')`. -/
  | logFetch (a : Address)
  /-- Line 122: `console.log('New token account detected …')`. -/
  | logDetected (a : Address) (t : TokenAccount)
  /-- Line 124: delivered `sendMessage` "New token account created …". -/
  | acctCreated (c : ChatId) (a : Address) (t : TokenAccount)
  /-- Line 49: delivered `ctx.reply('Added address … for tracking.')`. -/
  | replyAdded (c : ChatId) (a : Address)
  /-- Line 60: `ctx.reply('Invalid Solana address. Please try again.')`. -/
  | replyInvalid (c : ChatId)
  /-- Line 165: delivered balance-change `sendMessage` carrying previous
  balance, current balance and the computed change. -/
  | balanceChange (c : ChatId) (a : Address) (prev curr delta : ℚ)
deriving DecidableEq

/-- Oracle inputs of one `getTokenBalance` call: the fetch outcome and
whether the account-created `sendMessage` (line 124) resolves. -/
structure ProbeEnv where
  fetch : FetchResult
  sendOk : Bool
deriving DecidableEq

/-- Return value and emitted events of one `getTokenBalance` call;
`result = none` is the catch-all `return { balance: null, tokenAccount:
null }` at line 135. -/
structure ProbeOutcome where
  result : Option (ℚ × Option TokenAccount)
  events : List Event
deriving DecidableEq

/-- Lines 64–137, `getTokenBalance(address, chatId)`. `ata` is the
deterministic `getAssociatedTokenAddressSync` derivation; `known` is the
current `knownTokenAccounts` map (read at line 120, never written here).
A fetch error is rethrown (line 116) into the outer catch; a rejection of
the line-124 `sendMessage` likewise lands in the outer catch, so both
yield `result = none`. -/
def getTokenBalance (ata : Address → TokenAccount)
    (known : List (Address × List TokenAccount))
    (address : Address) (chatId : Option ChatId) (env : ProbeEnv) :
    ProbeOutcome :=
  match env.fetch with
  | .error => ⟨none, [.logFetch address]⟩
  | .notFound => ⟨some (0, none), [.logFetch address]⟩
  | .found raw =>
      if ata address ∈ (mapGet known address).getD [] then
        ⟨some (normalizeBalance raw, some (ata address)), [.logFetch address]⟩
      else
        match chatId with
        | some c =>
            if env.sendOk then
              ⟨some (normalizeBalance raw, some (ata address)),
                [.logFetch address, .logDetected address (ata address),
                  .acctCreated c address (ata address)]⟩
            else
              ⟨none, [.logFetch address, .logDetected address (ata address)]⟩
        | none =>
            ⟨some (normalizeBalance raw, some (ata address)),
              [.logFetch address, .logDetected address (ata address)]⟩

/-- The three module-level maps (lines 19–21). -/
structure BotState where
  userAddresses : List (ChatId × List Address)
  lastBalances : List (Address × Option ℚ)
  knownTokenAccounts : List (Address × List TokenAccount)
deriving DecidableEq

/-- Oracle inputs of one `/add` invocation: whether the confirmation
`ctx.reply` (line 49) resolves, plus the probe's oracle inputs. -/
structure AddEnv where
  replyOk : Bool
  fetch : FetchResult
  sendOk : Bool
deriving DecidableEq

/-- Lines 51–57: consume the seeding probe's result inside the `/add`
handler. `lastBalances.set(address, balance)` runs unconditionally, so a
failed probe stores `none`; `knownTokenAccounts` is replaced only when
`tokenAccount` is non-null. -/
def addSeed (s1 : BotState) (c : ChatId) (a : Address) (out : ProbeOutcome) :
    BotState × List Event :=
  match out.result with
  | none =>
      ({ s1 with lastBalances := mapSet s1.lastBalances a none },
        .replyAdded c a :: out.events)
  | some (b, t) =>
      let s2 := { s1 with lastBalances := mapSet s1.lastBalances a (some b) }
      match t with
      | some tk =>
          ({ s2 with knownTokenAccounts := mapSet s2.knownTokenAccounts a [tk] },
            .replyAdded c a :: out.events)
      | none => (s2, .replyAdded c a :: out.events)

/-- Lines 28–62, the `bot.command('add')` handler, for a non-empty
address argument. `valid` is whether `new PublicKey(address)` succeeds
(line 39). Any rejection after validation lands in the same catch, which
replies "Invalid Solana address" (line 60); `getTokenBalance` itself
never throws, so only the line-49 reply can reach that catch. -/
def addHandler (ata : Address → TokenAccount) (valid : Bool) (env : AddEnv)
    (s : BotState) (c : ChatId) (a : Address) : BotState × List Event :=
  if valid = false then (s, [.replyInvalid c])
  else
    let s1 : BotState :=
      { s with userAddresses :=
          mapSet s.userAddresses c (setAdd ((mapGet s.userAddresses c).getD []) a) }
    if env.replyOk = false then (s1, [.replyInvalid c])
    else
      addSeed s1 c a
        (getTokenBalance ata s1.knownTokenAccounts a (some c)
          ⟨env.fetch, env.sendOk⟩)

/-- Lines 182–188: consume the seed-list probe's result in `main`. -/
def seedOne (s : BotState) (a : Address) (out : ProbeOutcome) :
    BotState × List Event :=
  match out.result with
  | none =>
      ({ s with lastBalances := mapSet s.lastBalances a none }, out.events)
  | some (b, t) =>
      let s2 := { s with lastBalances := mapSet s.lastBalances a (some b) }
      match t with
      | some tk =>
          ({ s2 with knownTokenAccounts := mapSet s2.knownTokenAccounts a [tk] },
            out.events)
      | none => (s2, out.events)

/-- Lines 178–192: one iteration of the seed-list loop in `main`.
A `new PublicKey` failure is caught and skips the address; the probe runs
with `chatId = null`, so no account-created message can be attempted. -/
def seedAddress (ata : Address → TokenAccount) (valid : Bool)
    (fetch : FetchResult) (s : BotState) (a : Address) :
    BotState × List Event :=
  if valid = false then (s, [])
  else seedOne s a (getTokenBalance ata s.knownTokenAccounts a none ⟨fetch, true⟩)

/-- Oracle inputs of one loop body of `monitorBalances`: the probe's
inputs plus whether the balance-change `sendMessage` (line 165) resolves. -/
structure StepEnv where
  fetch : FetchResult
  sendOk : Bool
  changeSendOk : Bool
deriving DecidableEq

/-- Result of one loop body of `monitorBalances`: either normal
continuation, or an exception escaping the (uncaught) line-165 `await`,
which terminates the whole async function. Both carry the store as
mutated so far and the events emitted so far. -/
inductive StepResult where
  | ok (s : BotState) (events : List Event)
  | thrown (s : BotState) (events : List Event)
deriving DecidableEq

def StepResult.state : StepResult → BotState
  | .ok s _ => s
  | .thrown s _ => s

def StepResult.events : StepResult → List Event
  | .ok _ e => e
  | .thrown _ e => e

/-- Lines 147–170: the part of the `monitorBalances` loop body after the
probe returns. On probe failure (`null` balance) the address is skipped
with no mutation. Otherwise `knownTokenAccounts` is replaced when a
token account was seen (lines 152–154), the previous balance defaults to
`0` via `|| 0` (line 156), and on a difference the notification is sent
*before* `lastBalances.set` (lines 165–166) — a rejected send therefore
escapes with the store update not yet applied. -/
def monitorUpdate (changeSendOk : Bool) (s : BotState) (c : ChatId)
    (a : Address) (probeEvents : List Event) :
    Option (ℚ × Option TokenAccount) → StepResult
  | none => .ok s probeEvents
  | some (b, t) =>
      let s1 : BotState :=
        match t with
        | some tk =>
            { s with knownTokenAccounts := mapSet s.knownTokenAccounts a [tk] }
        | none => s
      let lastBalance : ℚ := ((mapGet s1.lastBalances a).getD none).getD 0
      if b = lastBalance then .ok s1 probeEvents
      else if changeSendOk then
        .ok { s1 with lastBalances := mapSet s1.lastBalances a (some b) }
          (probeEvents ++ [.balanceChange c a lastBalance b (b - lastBalance)])
      else .thrown s1 probeEvents

/-- Lines 143–170: one `(chatId, address)` iteration of `monitorBalances`. -/
def monitorStep (ata : Address → TokenAccount) (env : StepEnv) (s : BotState)
    (c : ChatId) (a : Address) : StepResult :=
  let out := getTokenBalance ata s.knownTokenAccounts a (some c)
    ⟨env.fetch, env.sendOk⟩
  monitorUpdate env.changeSendOk s c a out.events out.result

/-- The `(chatId, address)` pairs visited by one cycle, in the iteration
order of lines 141–143 (map entries in insertion order, then the chat's
address set in insertion order). -/
def pairsOf (s : BotState) : List (ChatId × Address) :=
  pairsOfTable s.userAddresses
where
  pairsOfTable : List (ChatId × List Address) → List (ChatId × Address)
    | [] => []
    | (c, addrs) :: rest => addrs.map (fun a => (c, a)) ++ pairsOfTable rest

/-- Outcome of one `monitorBalances` call: final store, emitted events,
and whether the cycle completed (`false` when an uncaught rejection of
the line-165 send terminated it early). -/
structure CycleResult where
  state : BotState
  events : List Event
  completed : Bool
deriving DecidableEq

/-- Iterate `monitorStep` over the remaining pairs; an exception aborts
the remainder of the cycle. -/
def runPairs (ata : Address → TokenAccount)
    (envs : ChatId → Address → StepEnv) :
    List (ChatId × Address) → BotState → CycleResult
  | [], s => ⟨s, [], true⟩
  | (c, a) :: rest, s =>
      match monitorStep ata (envs c a) s c a with
      | .ok s1 ev =>
          let r := runPairs ata envs rest s1
          ⟨r.state, ev ++ r.events, r.completed⟩
      | .thrown s1 ev => ⟨s1, ev, false⟩

/-- Lines 139–174, `monitorBalances()`: one full cycle over the current
registry. -/
def monitorBalances (ata : Address → TokenAccount)
    (envs : ChatId → Address → StepEnv) (s : BotState) : CycleResult :=
  runPairs ata envs (pairsOf s) s

/-- Event-loop state for the timer of line 194: the shared store plus the
remaining work of every `monitorBalances` invocation that has started and
not yet finished. -/
structure Sched where
  store : BotState
  cycles : List (List (ChatId × Address))
deriving DecidableEq

/-- Interleaved event-loop occurrences: `setInterval` firing (line 194 —
Node fires the callback every period without awaiting the previous async
invocation, so firing is enabled regardless of `cycles`), or one
suspended cycle advancing by one `(chatId, address)` iteration (each
iteration awaits the network, so the loop can run timers in between). -/
inductive SchedOp where
  | timerFire
  | runStep (i : Nat) (env : StepEnv)

/-- One event-loop transition. A finished or thrown cycle is removed
from the running set. -/
def schedStep (ata : Address → TokenAccount) (sch : Sched) :
    SchedOp → Sched
  | .timerFire => { sch with cycles := sch.cycles ++ [pairsOf sch.store] }
  | .runStep i env =>
      match sch.cycles.get? i with
      | none => sch
      | some [] => { sch with cycles := sch.cycles.eraseIdx i }
      | some ((c, a) :: rest) =>
          match monitorStep ata env sch.store c a with
          | .ok st _ =>
              { store := st,
                cycles := if rest.isEmpty then sch.cycles.eraseIdx i
                          else sch.cycles.set i rest }
          | .thrown st _ => { store := st, cycles := sch.cycles.eraseIdx i }

/-- Is this event a balance-change message delivered to chat `c`? -/
def isBalanceChangeFor (c : ChatId) : Event → Bool
  | .balanceChange c2 _ _ _ _ => c2 = c
  | _ => false

/-- Is this event the new-token-account detection log (line 122)? -/
def isDetectLog : Event → Bool
  | .logDetected _ _ => true
  | _ => false

/-- Is this event a delivered account-created message (line 124)? -/
def isAcctCreatedMsg : Event → Bool
  | .acctCreated _ _ _ => true
  | _ => false

/-! ## Helper lemmas about the map/set embedding and the probe -/

theorem mapGet_mapSet_self {K V : Type} [DecidableEq K]
    (m : List (K × V)) (k : K) (v : V) :
    mapGet (mapSet m k v) k = some v := by
  induction m with
  | nil => simp [mapGet, mapSet]
  | cons p rest ih =>
      obtain ⟨k', v'⟩ := p
      by_cases h : k' = k
      · simp [mapGet, mapSet, h]
      · simp [mapGet, mapSet, h, ih]

theorem mapSet_eq_of_mapGet {K V : Type} [DecidableEq K]
    {m : List (K × V)} {k : K} {v : V} (h : mapGet m k = some v) :
    mapSet m k v = m := by
  induction m with
  | nil => simp [mapGet] at h
  | cons p rest ih =>
      obtain ⟨k', v'⟩ := p
      by_cases hk : k' = k
      · subst hk
        simp [mapGet] at h
        simp [mapSet, h]
      · simp [mapGet, hk] at h
        simp [mapSet, hk, ih h]

theorem mapGet_mapSet_ne {K V : Type} [DecidableEq K]
    (m : List (K × V)) {k k2 : K} (v : V) (h : k2 ≠ k) :
    mapGet (mapSet m k v) k2 = mapGet m k2 := by
  have h' : ¬(k = k2) := fun hkk => h hkk.symm
  induction m with
  | nil => simp [mapGet, mapSet, h']
  | cons p rest ih =>
      obtain ⟨k', v'⟩ := p
      by_cases hk : k' = k
      · subst hk
        simp [mapGet, mapSet, h']
      · simp [mapGet, mapSet, hk, ih]

/-- Every `getTokenBalance` call logs the line-66 fetch message. -/
theorem getTokenBalance_logFetch_mem (ata : Address → TokenAccount)
    (known : List (Address × List TokenAccount)) (address : Address)
    (chatId : Option ChatId) (env : ProbeEnv) :
    Event.logFetch address ∈ (getTokenBalance ata known address chatId env).events := by
  rcases env with ⟨fetch, sOk⟩
  cases fetch with
  | error => simp [getTokenBalance]
  | notFound => simp [getTokenBalance]
  | found raw =>
      unfold getTokenBalance
      dsimp only
      split
      · simp
      · cases chatId with
        | none => simp
        | some c => cases sOk <;> simp

/-- `getTokenBalance` never emits a balance-change message. -/
theorem getTokenBalance_no_balanceChange (ata : Address → TokenAccount)
    (known : List (Address × List TokenAccount)) (address : Address)
    (chatId : Option ChatId) (env : ProbeEnv) (c : ChatId) :
    ((getTokenBalance ata known address chatId env).events).filter
      (isBalanceChangeFor c) = [] := by
  rcases env with ⟨fetch, sOk⟩
  cases fetch with
  | error => simp [getTokenBalance, isBalanceChangeFor]
  | notFound => simp [getTokenBalance, isBalanceChangeFor]
  | found raw =>
      unfold getTokenBalance
      dsimp only
      split
      · simp [isBalanceChangeFor]
      · cases chatId with
        | none => simp [isBalanceChangeFor]
        | some c2 => cases sOk <;> simp [isBalanceChangeFor]

/-- The line-122 detection log of a successful fetch fires exactly when
the derived token account is absent from the previous known set. -/
theorem getTokenBalance_detect_found (ata : Address → TokenAccount)
    (known : List (Address × List TokenAccount)) (address : Address)
    (chatId : Option ChatId) (raw : Nat) (sOk : Bool) :
    ((getTokenBalance ata known address chatId ⟨.found raw, sOk⟩).events).filter
        isDetectLog =
      if ata address ∈ (mapGet known address).getD [] then []
      else [Event.logDetected address (ata address)] := by
  unfold getTokenBalance
  dsimp only
  split
  · simp [isDetectLog]
  · cases chatId with
    | none => simp [isDetectLog]
    | some c => cases sOk <;> simp [isDetectLog]

/-- A fetch that does not find the account fires no detection log. -/
theorem getTokenBalance_detect_notFound (ata : Address → TokenAccount)
    (known : List (Address × List TokenAccount)) (address : Address)
    (chatId : Option ChatId) (sOk : Bool) :
    ((getTokenBalance ata known address chatId ⟨.notFound, sOk⟩).events).filter
        isDetectLog = []
    ∧ ((getTokenBalance ata known address chatId ⟨.error, sOk⟩).events).filter
        isDetectLog = [] := by
  constructor <;> simp [getTokenBalance, isDetectLog]

/-- With a resolving account-created send, a successful fetch always
yields a successful probe result carrying the normalized balance and the
derived token account. -/
theorem getTokenBalance_found_sendOk (ata : Address → TokenAccount)
    (known : List (Address × List TokenAccount)) (address : Address)
    (chatId : Option ChatId) (raw : Nat) :
    (getTokenBalance ata known address chatId ⟨.found raw, true⟩).result =
      some (normalizeBalance raw, some (ata address)) := by
  unfold getTokenBalance
  dsimp only
  split
  · rfl
  · cases chatId <;> rfl

/-- With no subscriber context (`chatId = null`), no account-created
message is ever attempted, hence none is delivered. -/
theorem getTokenBalance_nullChat_no_acctCreated (ata : Address → TokenAccount)
    (known : List (Address × List TokenAccount)) (address : Address)
    (env : ProbeEnv) :
    ((getTokenBalance ata known address none env).events).filter
      isAcctCreatedMsg = [] := by
  rcases env with ⟨fetch, sOk⟩
  cases fetch with
  | error => simp [getTokenBalance, isAcctCreatedMsg]
  | notFound => simp [getTokenBalance, isAcctCreatedMsg]
  | found raw =>
      unfold getTokenBalance
      dsimp only
      split
      · simp [isAcctCreatedMsg]
      · simp [isAcctCreatedMsg]

theorem addSeed_userAddresses (s1 : BotState) (c : ChatId) (a : Address)
    (out : ProbeOutcome) :
    (addSeed s1 c a out).1.userAddresses = s1.userAddresses := by
  rcases out with ⟨res, evts⟩
  cases res with
  | none => rfl
  | some bt =>
      obtain ⟨b, t⟩ := bt
      cases t <;> rfl

theorem addSeed_events (s1 : BotState) (c : ChatId) (a : Address)
    (out : ProbeOutcome) :
    (addSeed s1 c a out).2 = Event.replyAdded c a :: out.events := by
  rcases out with ⟨res, evts⟩
  cases res with
  | none => rfl
  | some bt =>
      obtain ⟨b, t⟩ := bt
      cases t <;> rfl

/-! ## Claims -/

/-- C1 (amended): a failed probe (`balance === null`) leaves the
BalanceStore record untouched and emits no notification in the
*monitoring-cycle* path only. In the `/add` seeding path and the
seed-list initialization path, `lastBalances.set(address, balance)` runs
unconditionally, so a failed probe overwrites that address's
`lastBalances` entry with `null` (creating it when absent); the
`knownTokenAccounts` entry is left unchanged and no notification is
emitted on any failing path. -/
theorem c1_failed_probe (ata : Address → TokenAccount)
    (env : StepEnv) (aenv : AddEnv) (s s2 s3 : BotState) (c : ChatId) (a : Address)
    (h1 : env.fetch = .error) (h2 : aenv.fetch = .error) (h3 : aenv.replyOk = true) :
    monitorStep ata env s c a = .ok s [.logFetch a]
    ∧ addHandler ata true aenv s2 c a =
        ({ userAddresses := mapSet s2.userAddresses c
             (setAdd ((mapGet s2.userAddresses c).getD []) a),
           lastBalances := mapSet s2.lastBalances a none,
           knownTokenAccounts := s2.knownTokenAccounts },
          [.replyAdded c a, .logFetch a])
    ∧ seedAddress ata true .error s3 a =
        ({ s3 with lastBalances := mapSet s3.lastBalances a none }, [.logFetch a]) := by
  refine ⟨?_, ?_, ?_⟩
  · simp [monitorStep, getTokenBalance, monitorUpdate, h1]
  · simp [addHandler, addSeed, getTokenBalance, h2, h3]
  · simp [seedAddress, seedOne, getTokenBalance]

/-- C1 counterexample: in the `/add` path a failed probe does *not*
leave the BalanceStore record unchanged — a stored balance of `15/2` is
overwritten with `null`. -/
theorem c1_counterexample :
    (addHandler (fun a => String.append "T" a) true ⟨true, FetchResult.error, true⟩
        ⟨[(1, ["A"])], [("A", some (15/2))], []⟩ 1 "A").1.lastBalances
      ≠ [("A", some (15/2))] := by
  simp [addHandler, addSeed, getTokenBalance, mapGet, mapSet, setAdd]

/-- C1 witness: the amended theorem applied at concrete inputs. -/
theorem c1_witness :
    monitorStep (fun a => String.append "T" a) ⟨.error, true, true⟩ ⟨[], [], []⟩ 1 "A" =
        .ok ⟨[], [], []⟩ [.logFetch "A"]
    ∧ addHandler (fun a => String.append "T" a) true ⟨true, .error, true⟩ ⟨[], [], []⟩ 1 "A" =
        (⟨[(1, ["A"])], [("A", none)], []⟩, [.replyAdded 1 "A", .logFetch "A"])
    ∧ seedAddress (fun a => String.append "T" a) true .error ⟨[], [], []⟩ "A" =
        (⟨[], [("A", none)], []⟩, [.logFetch "A"]) := by
  have h := c1_failed_probe (fun a => String.append "T" a) ⟨.error, true, true⟩
    ⟨true, .error, true⟩ ⟨[], [], []⟩ ⟨[], [], []⟩ ⟨[], [], []⟩ 1 "A" rfl rfl rfl
  simpa [mapSet, mapGet, setAdd] using h

/-- C5: for an address with no prior BalanceStore record
(`lastBalances.get(a)` is `undefined`), a successful probe result
`(b, t)` is compared against a previous balance of `0` (the `|| 0`
default of line 156), and a balance-change notification — carrying
`previous = 0`, `current = b`, `delta = b` — is generated exactly when
`b ≠ 0`. -/
theorem c5_zero_baseline (ata : Address → TokenAccount) (env : StepEnv)
    (s : BotState) (c : ChatId) (a : Address) (b : ℚ) (t : Option TokenAccount)
    (hres : (getTokenBalance ata s.knownTokenAccounts a (some c)
        ⟨env.fetch, env.sendOk⟩).result = some (b, t))
    (hnone : mapGet s.lastBalances a = none)
    (hsend : env.changeSendOk = true) :
    ((monitorStep ata env s c a).events).filter (isBalanceChangeFor c) =
      if b = 0 then [] else [Event.balanceChange c a 0 b b] := by
  have hnb := getTokenBalance_no_balanceChange ata s.knownTokenAccounts a (some c)
    ⟨env.fetch, env.sendOk⟩ c
  simp only [monitorStep]
  rw [hres]
  cases t with
  | none =>
      unfold monitorUpdate
      simp only [hnone, hsend]
      by_cases hb : b = 0
      · simp [hb, StepResult.events, hnb]
      · simp [hb, StepResult.events, hnb, isBalanceChangeFor]
  | some tk =>
      unfold monitorUpdate
      simp only [hnone, hsend]
      by_cases hb : b = 0
      · simp [hb, StepResult.events, hnb]
      · simp [hb, StepResult.events, hnb, isBalanceChangeFor]

/-- C5 witness at a concrete no-prior-record state. -/
theorem c5_witness :
    ((monitorStep (fun a => String.append "T" a) ⟨.found 3000000, true, true⟩
        ⟨[(1, ["A"])], [], []⟩ 1 "A").events).filter (isBalanceChangeFor 1) =
      [Event.balanceChange 1 "A" 0 3 3] := by
  have hres : (getTokenBalance (fun a => String.append "T" a) [] "A" (some 1)
      ⟨.found 3000000, true⟩).result = some (3, some "TA") := by
    have h2 : normalizeBalance 3000000 = 3 := by
      rw [normalizeBalance, show jsNumberOfNat 3000000 = 3000000 from by decide]
      norm_num
    simp [getTokenBalance, mapGet, h2, show String.append "T" "A" = "TA" from rfl]
  have h := c5_zero_baseline (fun a => String.append "T" a) ⟨.found 3000000, true, true⟩
    ⟨[(1, ["A"])], [], []⟩ 1 "A" 3 (some "TA") hres rfl rfl
  simpa [show (3 : ℚ) ≠ 0 by norm_num] using h

/-- C7: a non-existent token account is a *successful* probe returning
balance `0` and a `null` token account; any other fetch failure yields
`ProbeFailure` (`null` balance, `null` account). In the monitoring cycle
a failure mutates nothing and emits nothing, whereas a genuine zero
balance is compared (and, against a non-zero stored balance, notified) —
the `null` balance is never treated as zero. -/
theorem c7_probe_taxonomy (ata : Address → TokenAccount)
    (known : List (Address × List TokenAccount)) (a : Address)
    (cid : Option ChatId) (sOk : Bool) (env : StepEnv) (s : BotState)
    (c : ChatId) (p : ℚ)
    (herr : env.fetch = .error)
    (hp : mapGet s.lastBalances a = some (some p)) (hp0 : p ≠ 0) :
    getTokenBalance ata known a cid ⟨.notFound, sOk⟩ = ⟨some (0, none), [.logFetch a]⟩
    ∧ getTokenBalance ata known a cid ⟨.error, sOk⟩ = ⟨none, [.logFetch a]⟩
    ∧ monitorStep ata env s c a = .ok s [.logFetch a]
    ∧ monitorStep ata ⟨.notFound, sOk, true⟩ s c a =
        .ok { s with lastBalances := mapSet s.lastBalances a (some 0) }
          [.logFetch a, .balanceChange c a p 0 (0 - p)] := by
  have hp0' : ¬((0 : ℚ) = p) := fun h => hp0 h.symm
  refine ⟨by simp [getTokenBalance], by simp [getTokenBalance], ?_, ?_⟩
  · simp [monitorStep, getTokenBalance, monitorUpdate, herr]
  · simp [monitorStep, getTokenBalance, monitorUpdate, hp, hp0']

/-- C7 witness: concrete probes and monitor steps for both failure kinds. -/
theorem c7_witness :
    getTokenBalance (fun a => String.append "T" a) [] "A" (some 1) ⟨.notFound, true⟩ =
        ⟨some (0, none), [.logFetch "A"]⟩
    ∧ getTokenBalance (fun a => String.append "T" a) [] "A" (some 1) ⟨.error, true⟩ =
        ⟨none, [.logFetch "A"]⟩
    ∧ monitorStep (fun a => String.append "T" a) ⟨.error, true, true⟩
        ⟨[], [("A", some 5)], []⟩ 1 "A" = .ok ⟨[], [("A", some 5)], []⟩ [.logFetch "A"]
    ∧ monitorStep (fun a => String.append "T" a) ⟨.notFound, true, true⟩
        ⟨[], [("A", some 5)], []⟩ 1 "A" =
        .ok ⟨[], [("A", some 0)], []⟩ [.logFetch "A", .balanceChange 1 "A" 5 0 (0 - 5)] := by
  have h := c7_probe_taxonomy (fun a => String.append "T" a) [] "A" (some 1) true
    ⟨.error, true, true⟩ ⟨[], [("A", some 5)], []⟩ 1 5 rfl (by simp [mapGet]) (by norm_num)
  simpa [mapSet] using h

/-- C8: a subscription with an address failing `new PublicKey`
validation replies with the invalid-address error and performs no state
change at all; re-subscribing an already-tracked `(subscriber, address)`
pair leaves the registry (`userAddresses`) unchanged, yet still performs
one fresh immediate probe (the line-66 fetch log is emitted). -/
theorem c8_subscribe_guard_idempotent (ata : Address → TokenAccount)
    (env : AddEnv) (s : BotState) (c : ChatId) (a : Address) (cs : List Address)
    (hcs : mapGet s.userAddresses c = some cs) (hmem : a ∈ cs)
    (hr : env.replyOk = true) :
    addHandler ata false env s c a = (s, [.replyInvalid c])
    ∧ (addHandler ata true env s c a).1.userAddresses = s.userAddresses
    ∧ Event.logFetch a ∈ (addHandler ata true env s c a).2 := by
  have hset : setAdd ((mapGet s.userAddresses c).getD []) a = cs := by
    rw [hcs]
    simp [setAdd, hmem]
  refine ⟨by simp [addHandler], ?_, ?_⟩
  · simp only [addHandler, hr]
    simp only [Bool.true_eq_false, if_false, hset, mapSet_eq_of_mapGet hcs]
    exact addSeed_userAddresses _ _ _ _
  · simp only [addHandler, hr]
    simp only [Bool.true_eq_false, if_false]
    rw [addSeed_events]
    exact List.mem_cons_of_mem _ (getTokenBalance_logFetch_mem _ _ _ _ _)

/-- C8 witness at a concrete already-tracked pair. -/
theorem c8_witness :
    addHandler (fun a => String.append "T" a) false ⟨true, .notFound, true⟩
        ⟨[(1, ["A"])], [], []⟩ 1 "A" = (⟨[(1, ["A"])], [], []⟩, [.replyInvalid 1])
    ∧ (addHandler (fun a => String.append "T" a) true ⟨true, .notFound, true⟩
        ⟨[(1, ["A"])], [], []⟩ 1 "A").1.userAddresses = [(1, ["A"])]
    ∧ Event.logFetch "A" ∈ (addHandler (fun a => String.append "T" a) true
        ⟨true, .notFound, true⟩ ⟨[(1, ["A"])], [], []⟩ 1 "A").2 :=
  c8_subscribe_guard_idempotent (fun a => String.append "T" a) ⟨true, .notFound, true⟩
    ⟨[(1, ["A"])], [], []⟩ 1 "A" ["A"] (by simp [mapGet]) (by simp) rfl

/-- C2 (amended): when the probed balance differs from the stored last
balance, the balance-change notification goes only to the subscriber
iterated *first*: its step updates the address-scoped `lastBalances`, so
every later subscriber tracking the same address compares against the
already-updated store and (with a stable probe result within the cycle)
receives nothing. -/
theorem c2_first_subscriber_only (ata : Address → TokenAccount) (c1 c2 : ChatId)
    (a : Address) (p : ℚ) (raw : Nat) (_hcc : c1 ≠ c2)
    (hne : normalizeBalance raw ≠ p) :
    monitorBalances ata (fun _ _ => ⟨.found raw, true, true⟩)
        ⟨[(c1, [a]), (c2, [a])], [(a, some p)], [(a, [ata a])]⟩ =
      ⟨⟨[(c1, [a]), (c2, [a])], [(a, some (normalizeBalance raw))], [(a, [ata a])]⟩,
        [.logFetch a,
          .balanceChange c1 a p (normalizeBalance raw) (normalizeBalance raw - p),
          .logFetch a],
        true⟩ := by
  simp [monitorBalances, pairsOf, pairsOf.pairsOfTable, runPairs, monitorStep,
    monitorUpdate, getTokenBalance, mapGet, mapSet, hne]

/-- C2 counterexample: chats 1 and 2 both track address "A", whose
balance moved from 5 to 7.5; only chat 1 receives a balance-change
message, chat 2 receives none. -/
theorem c2_counterexample :
    ((monitorBalances (fun a => String.append "T" a) (fun _ _ => ⟨.found 7500000, true, true⟩)
        ⟨[(1, ["A"]), (2, ["A"])], [("A", some 5)], [("A", ["TA"])]⟩).events).filter
        (isBalanceChangeFor 2) = []
    ∧ (2, "A") ∈ pairsOf ⟨[(1, ["A"]), (2, ["A"])], [("A", some 5)], [("A", ["TA"])]⟩
    ∧ ((monitorBalances (fun a => String.append "T" a) (fun _ _ => ⟨.found 7500000, true, true⟩)
        ⟨[(1, ["A"]), (2, ["A"])], [("A", some 5)], [("A", ["TA"])]⟩).events).filter
        (isBalanceChangeFor 1) = [.balanceChange 1 "A" 5 (15/2) (15/2 - 5)] := by
  have hnb : normalizeBalance 7500000 = 15/2 := by
    rw [normalizeBalance, show jsNumberOfNat 7500000 = 7500000 from by decide]
    norm_num
  refine ⟨?_, by simp [pairsOf, pairsOf.pairsOfTable], ?_⟩ <;>
    simp [monitorBalances, pairsOf, pairsOf.pairsOfTable, runPairs, monitorStep,
      monitorUpdate, getTokenBalance, mapGet, mapSet, hnb, isBalanceChangeFor,
      show String.append "T" "A" = "TA" from rfl, show (15/2 : ℚ) ≠ 5 by norm_num]

/-- C2 witness: the amended theorem at a concrete two-subscriber state. -/
theorem c2_witness :
    monitorBalances (fun a => String.append "T" a) (fun _ _ => ⟨.found 7500000, true, true⟩)
        ⟨[(1, ["A"]), (2, ["A"])], [("A", some 5)], [("A", ["TA"])]⟩ =
      ⟨⟨[(1, ["A"]), (2, ["A"])], [("A", some (15/2))], [("A", ["TA"])]⟩,
        [.logFetch "A", .balanceChange 1 "A" 5 (15/2) (15/2 - 5), .logFetch "A"],
        true⟩ := by
  have hnb : normalizeBalance 7500000 = 15/2 := by
    rw [normalizeBalance, show jsNumberOfNat 7500000 = 7500000 from by decide]
    norm_num
  have h := c2_first_subscriber_only (fun a => String.append "T" a) 1 2 "A" 5 7500000
    (by decide) (by rw [hnb]; norm_num)
  simpa [hnb, show String.append "T" "A" = "TA" from rfl] using h

/-- C3 (amended): a rejected *balance-change* send (line 165) is not
caught anywhere in `monitorBalances`: it aborts the cycle (later pairs
are never visited) and prevents the `lastBalances` update for that
address, which sits after the send. A rejected *account-created* send
(line 124) is caught inside the probe and converted into a probe
failure: the cycle continues with the next pair, but that address's
store update is skipped. -/
theorem c3_delivery_failure (ata : Address → TokenAccount) (s s2 : BotState)
    (c c2 : ChatId) (a a2 : Address) (p : ℚ) (raw : Nat)
    (rest rest2 : List (ChatId × Address))
    (hk : mapGet s.knownTokenAccounts a = some [ata a])
    (hp : mapGet s.lastBalances a = some (some p))
    (hne : normalizeBalance raw ≠ p)
    (hk2 : ata a2 ∉ (mapGet s2.knownTokenAccounts a2).getD []) :
    runPairs ata (fun _ _ => ⟨.found raw, true, false⟩) ((c, a) :: rest) s =
        ⟨s, [.logFetch a], false⟩
    ∧ monitorStep ata ⟨.found raw, false, false⟩ s2 c2 a2 =
        .ok s2 [.logFetch a2, .logDetected a2 (ata a2)]
    ∧ runPairs ata (fun _ _ => ⟨.found raw, false, false⟩) ((c2, a2) :: rest2) s2 =
        ⟨(runPairs ata (fun _ _ => ⟨.found raw, false, false⟩) rest2 s2).state,
          [.logFetch a2, .logDetected a2 (ata a2)] ++
            (runPairs ata (fun _ _ => ⟨.found raw, false, false⟩) rest2 s2).events,
          (runPairs ata (fun _ _ => ⟨.found raw, false, false⟩) rest2 s2).completed⟩ := by
  have hstep2 : monitorStep ata ⟨.found raw, false, false⟩ s2 c2 a2 =
      .ok s2 [.logFetch a2, .logDetected a2 (ata a2)] := by
    simp [monitorStep, getTokenBalance, monitorUpdate, hk2]
  refine ⟨?_, hstep2, ?_⟩
  · have hstep : monitorStep ata ⟨.found raw, true, false⟩ s c a =
        .thrown s [.logFetch a] := by
      simp only [monitorStep, getTokenBalance]
      rw [hk]
      simp only [Option.getD_some, List.mem_singleton, if_pos rfl]
      unfold monitorUpdate
      simp [mapSet_eq_of_mapGet hk, hp, hne]
    simp [runPairs, hstep]
  · simp [runPairs, hstep2]

/-- C3 counterexample: chat 1 tracks "A" then "B"; the balance-change
send for "A" rejects. The cycle ends at once: "B" is scheduled but never
probed (`completed = false`, no fetch log for "B"), and "A" keeps its
stale stored balance 5 despite the probe having returned 7.5. -/
theorem c3_counterexample :
    monitorBalances (fun a => String.append "T" a)
        (fun _ x => if x = "A" then ⟨.found 7500000, true, false⟩
                    else ⟨.found 7500000, true, true⟩)
        ⟨[(1, ["A", "B"])], [("A", some 5), ("B", some 5)],
          [("A", ["TA"]), ("B", ["TB"])]⟩ =
      ⟨⟨[(1, ["A", "B"])], [("A", some 5), ("B", some 5)],
          [("A", ["TA"]), ("B", ["TB"])]⟩, [.logFetch "A"], false⟩
    ∧ (1, "B") ∈ pairsOf ⟨[(1, ["A", "B"])], [("A", some 5), ("B", some 5)],
          [("A", ["TA"]), ("B", ["TB"])]⟩ := by
  have hnb : normalizeBalance 7500000 = 15/2 := by
    rw [normalizeBalance, show jsNumberOfNat 7500000 = 7500000 from by decide]
    norm_num
  constructor
  · simp [monitorBalances, pairsOf, pairsOf.pairsOfTable, runPairs, monitorStep,
      monitorUpdate, getTokenBalance, mapGet, mapSet, hnb,
      show String.append "T" "A" = "TA" from rfl,
      show (15/2 : ℚ) ≠ 5 by norm_num]
  · simp [pairsOf, pairsOf.pairsOfTable]

/-- C3 witness: the amended theorem at concrete states. -/
theorem c3_witness :
    runPairs (fun a => String.append "T" a) (fun _ _ => ⟨.found 7500000, true, false⟩)
        [(1, "A"), (1, "B")] ⟨[(1, ["A", "B"])], [("A", some 5)], [("A", ["TA"])]⟩ =
      ⟨⟨[(1, ["A", "B"])], [("A", some 5)], [("A", ["TA"])]⟩, [.logFetch "A"], false⟩
    ∧ monitorStep (fun a => String.append "T" a) ⟨.found 7500000, false, false⟩
        ⟨[], [], []⟩ 2 "B" = .ok ⟨[], [], []⟩ [.logFetch "B", .logDetected "B" "TB"]
    ∧ runPairs (fun a => String.append "T" a) (fun _ _ => ⟨.found 7500000, false, false⟩)
        [(2, "B")] ⟨[], [], []⟩ =
      ⟨⟨[], [], []⟩, [.logFetch "B", .logDetected "B" "TB"], true⟩ := by
  have hnb : normalizeBalance 7500000 = 15/2 := by
    rw [normalizeBalance, show jsNumberOfNat 7500000 = 7500000 from by decide]
    norm_num
  have h := c3_delivery_failure (fun a => String.append "T" a)
    ⟨[(1, ["A", "B"])], [("A", some 5)], [("A", ["TA"])]⟩ ⟨[], [], []⟩ 1 2 "A" "B" 5 7500000
    [(1, "B")] []
    (by simp [mapGet, show String.append "T" "A" = "TA" from rfl])
    (by simp [mapGet])
    (by rw [hnb]; norm_num)
    (by simp [mapGet])
  simpa [runPairs, show String.append "T" "A" = "TA" from rfl,
    show String.append "T" "B" = "TB" from rfl] using h

/-- C4 (amended): monitoring cycles *can* overlap. Line 194's
`setInterval(monitorBalances, 10000)` fires the async callback every
period without awaiting the previous invocation and the source contains
no Idle/Running guard, so the timer unconditionally starts one more
concurrent cycle: whenever at least one earlier cycle is still running,
firing produces two simultaneously active cycles. -/
theorem c4_timer_no_guard (ata : Address → TokenAccount) (sch : Sched)
    (hne : sch.cycles ≠ []) :
    (schedStep ata sch .timerFire).cycles.length = sch.cycles.length + 1
    ∧ 2 ≤ (schedStep ata sch .timerFire).cycles.length := by
  have hpos : 0 < sch.cycles.length := List.length_pos.mpr hne
  constructor
  · simp [schedStep]
  · simp [schedStep]
    omega

/-- C4 counterexample: chat 1 tracks "A" and "B". The timer fires, the
cycle completes only its first iteration (suspended at the next network
await), and the timer fires again: two incomplete cycles are now
running at once. -/
theorem c4_counterexample :
    schedStep (fun a => String.append "T" a)
      (schedStep (fun a => String.append "T" a)
        (schedStep (fun a => String.append "T" a)
          ⟨⟨[(1, ["A", "B"])], [], []⟩, []⟩ .timerFire)
        (.runStep 0 ⟨.notFound, true, true⟩))
      .timerFire
    = ⟨⟨[(1, ["A", "B"])], [], []⟩, [[(1, "B")], [(1, "A"), (1, "B")]]⟩ := by
  simp [schedStep, pairsOf, pairsOf.pairsOfTable, monitorStep, getTokenBalance,
    monitorUpdate, mapGet, List.eraseIdx]

/-- C4 witness: one cycle still running, the timer fires, two cycles. -/
theorem c4_witness :
    (schedStep (fun a => String.append "T" a)
        ⟨⟨[(1, ["A"])], [], []⟩, [[(1, "A")]]⟩ .timerFire).cycles.length = 2
    ∧ 2 ≤ (schedStep (fun a => String.append "T" a)
        ⟨⟨[(1, ["A"])], [], []⟩, [[(1, "A")]]⟩ .timerFire).cycles.length := by
  have h := c4_timer_no_guard (fun a => String.append "T" a)
    ⟨⟨[(1, ["A"])], [], []⟩, [[(1, "A")]]⟩ (by simp)
  simpa using h

/-- The probe's returned token account is always `null` or the derived
associated token address of the probed address. -/
theorem getTokenBalance_result_account (ata : Address → TokenAccount)
    (known : List (Address × List TokenAccount)) (address : Address)
    (cid : Option ChatId) (env : ProbeEnv) (b : ℚ) (t : Option TokenAccount)
    (h : (getTokenBalance ata known address cid env).result = some (b, t)) :
    t = none ∨ t = some (ata address) := by
  rcases env with ⟨fetch, sOk⟩
  cases fetch with
  | error => simp [getTokenBalance] at h
  | notFound =>
      simp [getTokenBalance] at h
      left
      exact h.2.symm
  | found raw =>
      unfold getTokenBalance at h
      dsimp only at h
      split at h
      · simp at h
        right
        exact h.2.symm
      · cases cid with
        | none =>
            simp at h
            right
            exact h.2.symm
        | some c =>
            cases sOk with
            | false => simp at h
            | true =>
                simp at h
                right
                exact h.2.symm

/-- A monitor step emits exactly the detection logs of its probe (the
appended balance-change message is not a detection log). -/
theorem monitorStep_detect_filter (ata : Address → TokenAccount) (env : StepEnv)
    (s : BotState) (c : ChatId) (a : Address) :
    ((monitorStep ata env s c a).events).filter isDetectLog =
      ((getTokenBalance ata s.knownTokenAccounts a (some c)
          ⟨env.fetch, env.sendOk⟩).events).filter isDetectLog := by
  simp only [monitorStep]
  rcases hres : (getTokenBalance ata s.knownTokenAccounts a (some c)
      ⟨env.fetch, env.sendOk⟩).result with _ | ⟨b, t⟩
  · simp [monitorUpdate, StepResult.events]
  · cases t with
    | none =>
        unfold monitorUpdate
        dsimp only
        split
        · rfl
        · split
          · simp [StepResult.events, List.filter_append, isDetectLog]
          · rfl
    | some tk =>
        unfold monitorUpdate
        dsimp only
        split
        · rfl
        · split
          · simp [StepResult.events, List.filter_append, isDetectLog]
          · rfl

/-- A monitor step leaves `knownTokenAccounts` unchanged or replaces the
probed address's entry with the singleton of its derived token account. -/
theorem monitorStep_state_known (ata : Address → TokenAccount) (env : StepEnv)
    (s : BotState) (c : ChatId) (a2 : Address) :
    (monitorStep ata env s c a2).state.knownTokenAccounts = s.knownTokenAccounts
    ∨ (monitorStep ata env s c a2).state.knownTokenAccounts =
        mapSet s.knownTokenAccounts a2 [ata a2] := by
  simp only [monitorStep]
  rcases hres : (getTokenBalance ata s.knownTokenAccounts a2 (some c)
      ⟨env.fetch, env.sendOk⟩).result with _ | ⟨b, t⟩
  · left
    simp [monitorUpdate, StepResult.state]
  · rcases getTokenBalance_result_account ata s.knownTokenAccounts a2 (some c)
        ⟨env.fetch, env.sendOk⟩ b t hres with ht | ht
    · subst ht
      left
      unfold monitorUpdate
      dsimp only
      split
      · rfl
      · split <;> rfl
    · subst ht
      right
      unfold monitorUpdate
      dsimp only
      split
      · rfl
      · split <;> rfl

/-- C6 (amended): the line-122 detection fires iff the fetch found the
account and its derived identifier is absent from the address's previous
`knownTokenAccounts` set (never on not-found or error fetches), and with
a `null` subscriber context no account-created message is delivered.
Once the identifier is in the known set, a monitor step probing that
address fires no detection, and *every* monitor step — of any address —
preserves the identifier's membership, so detection never re-fires along
a cycle. (Without the delivery proviso this fails: see the
counterexample, where a rejected account-created send voids the probe,
the known set stays empty, and the same identifier is detected again.) -/
theorem c6_detection (ata : Address → TokenAccount)
    (known : List (Address × List TokenAccount)) (a : Address)
    (cid : Option ChatId) (raw : Nat) (sOk : Bool) (penv : ProbeEnv)
    (env : StepEnv) (s : BotState) (c : ChatId) (a2 : Address)
    (hinv : ata a ∈ (mapGet s.knownTokenAccounts a).getD []) :
    (((getTokenBalance ata known a cid ⟨.found raw, sOk⟩).events).filter isDetectLog =
        if ata a ∈ (mapGet known a).getD [] then []
        else [Event.logDetected a (ata a)])
    ∧ ((getTokenBalance ata known a cid ⟨.notFound, sOk⟩).events).filter isDetectLog = []
    ∧ ((getTokenBalance ata known a cid ⟨.error, sOk⟩).events).filter isDetectLog = []
    ∧ ((getTokenBalance ata known a none penv).events).filter isAcctCreatedMsg = []
    ∧ ((monitorStep ata env s c a).events).filter isDetectLog = []
    ∧ ata a ∈ (mapGet (monitorStep ata env s c a2).state.knownTokenAccounts a).getD [] := by
  refine ⟨getTokenBalance_detect_found ata known a cid raw sOk,
    (getTokenBalance_detect_notFound ata known a cid sOk).1,
    (getTokenBalance_detect_notFound ata known a cid sOk).2,
    getTokenBalance_nullChat_no_acctCreated ata known a penv, ?_, ?_⟩
  · rw [monitorStep_detect_filter]
    rcases env with ⟨fetch, sOk2, cso⟩
    cases fetch with
    | error =>
        exact (getTokenBalance_detect_notFound ata s.knownTokenAccounts a (some c) sOk2).2
    | notFound =>
        exact (getTokenBalance_detect_notFound ata s.knownTokenAccounts a (some c) sOk2).1
    | found raw2 =>
        rw [getTokenBalance_detect_found]
        simp [hinv]
  · rcases monitorStep_state_known ata env s c a2 with hk | hk
    · rw [hk]
      exact hinv
    · rw [hk]
      by_cases ha : a = a2
      · subst ha
        rw [mapGet_mapSet_self]
        simp
      · rw [mapGet_mapSet_ne _ _ ha]
        exact hinv

/-- C6 counterexample: detection *re-fires* for the same identifier when
the account-created send rejects — the failed probe leaves the known set
unchanged, and the next probe detects "TA" for "A" again. -/
theorem c6_counterexample :
    monitorStep (fun a => String.append "T" a) ⟨.found 3000000, false, true⟩
        ⟨[(1, ["A"])], [("A", some 3)], []⟩ 1 "A" =
      .ok ⟨[(1, ["A"])], [("A", some 3)], []⟩ [.logFetch "A", .logDetected "A" "TA"]
    ∧ (monitorStep (fun a => String.append "T" a) ⟨.found 3000000, true, true⟩
        ⟨[(1, ["A"])], [("A", some 3)], []⟩ 1 "A").events =
      [.logFetch "A", .logDetected "A" "TA", .acctCreated 1 "A" "TA"] := by
  have hnb : normalizeBalance 3000000 = 3 := by
    rw [normalizeBalance, show jsNumberOfNat 3000000 = 3000000 from by decide]
    norm_num
  constructor <;>
    simp [monitorStep, getTokenBalance, monitorUpdate, mapGet, mapSet, hnb,
      StepResult.events, show String.append "T" "A" = "TA" from rfl]

/-- C6 witness: the amended theorem at concrete inputs. -/
theorem c6_witness :
    (((getTokenBalance (fun a => String.append "T" a) [] "A" (some 1)
        ⟨.found 3000000, true⟩).events).filter isDetectLog =
        [Event.logDetected "A" "TA"])
    ∧ ((getTokenBalance (fun a => String.append "T" a) [] "A" (some 1)
        ⟨.notFound, true⟩).events).filter isDetectLog = []
    ∧ ((getTokenBalance (fun a => String.append "T" a) [] "A" (some 1)
        ⟨.error, true⟩).events).filter isDetectLog = []
    ∧ ((getTokenBalance (fun a => String.append "T" a) [] "A" none
        ⟨.found 3000000, false⟩).events).filter isAcctCreatedMsg = []
    ∧ ((monitorStep (fun a => String.append "T" a) ⟨.notFound, true, true⟩
        ⟨[], [], [("A", ["TA"])]⟩ 1 "A").events).filter isDetectLog = []
    ∧ "TA" ∈ (mapGet (monitorStep (fun a => String.append "T" a) ⟨.notFound, true, true⟩
        ⟨[], [], [("A", ["TA"])]⟩ 1 "B").state.knownTokenAccounts "A").getD [] := by
  have h := c6_detection (fun a => String.append "T" a) [] "A" (some 1) 3000000 true
    ⟨.found 3000000, false⟩ ⟨.notFound, true, true⟩ ⟨[], [], [("A", ["TA"])]⟩ 1 "B"
    (by simp [mapGet, show String.append "T" "A" = "TA" from rfl])
  simpa [mapGet, show String.append "T" "A" = "TA" from rfl] using h

/-- C9 (amended): the probe's balance is the raw amount, converted by JS
`Number` (exact only up to `2 ^ 53`), divided by `10 ^ 6`, and the change
test is exact equality on the normalized value (no epsilon). Equal raw
amounts always normalize equally, but the converse fails above `2 ^ 53`:
`Number` rounds `2 ^ 53 + 1` down to `2 ^ 53`, so two distinct raw
amounts report equal normalized balances. -/
theorem c9_normalization (ata : Address → TokenAccount)
    (known : List (Address × List TokenAccount)) (a : Address)
    (cid : Option ChatId) (raw r1 r2 : Nat) (env : StepEnv) (s : BotState)
    (c : ChatId) (b p : ℚ) (t : Option TokenAccount)
    (h12 : r1 = r2)
    (hres : (getTokenBalance ata s.knownTokenAccounts a (some c)
        ⟨env.fetch, env.sendOk⟩).result = some (b, t))
    (hp : mapGet s.lastBalances a = some (some p))
    (hsend : env.changeSendOk = true) :
    (getTokenBalance ata known a cid ⟨.found raw, true⟩).result =
        some ((jsNumberOfNat raw : ℚ) / 1000000, some (ata a))
    ∧ normalizeBalance r1 = normalizeBalance r2
    ∧ ((monitorStep ata env s c a).events).filter (isBalanceChangeFor c) =
        (if b = p then [] else [Event.balanceChange c a p b (b - p)])
    ∧ normalizeBalance (2 ^ 53) = normalizeBalance (2 ^ 53 + 1) := by
  have hnb := getTokenBalance_no_balanceChange ata s.knownTokenAccounts a (some c)
    ⟨env.fetch, env.sendOk⟩ c
  refine ⟨getTokenBalance_found_sendOk ata known a cid raw, by rw [h12], ?_, ?_⟩
  · simp only [monitorStep]
    rw [hres]
    cases t with
    | none =>
        unfold monitorUpdate
        simp only [hp, hsend]
        by_cases hb : b = p
        · simp [hb, StepResult.events, hnb]
        · simp [hb, StepResult.events, hnb, isBalanceChangeFor]
    | some tk =>
        unfold monitorUpdate
        simp only [hp, hsend]
        by_cases hb : b = p
        · simp [hb, StepResult.events, hnb]
        · simp [hb, StepResult.events, hnb, isBalanceChangeFor]
  · rw [normalizeBalance, normalizeBalance,
      show jsNumberOfNat (2 ^ 53) = 2 ^ 53 from by decide,
      show jsNumberOfNat (2 ^ 53 + 1) = 2 ^ 53 from by decide]

/-- C9 counterexample: two probes of distinct raw amounts `2 ^ 53` and
`2 ^ 53 + 1` report equal normalized balances, so "equal normalized iff
equal raw" fails. -/
theorem c9_counterexample :
    normalizeBalance (2 ^ 53) = normalizeBalance (2 ^ 53 + 1)
    ∧ (2 ^ 53 : Nat) ≠ 2 ^ 53 + 1
    ∧ (getTokenBalance (fun a => String.append "T" a) [] "A" none
        ⟨.found (2 ^ 53), true⟩).result =
      (getTokenBalance (fun a => String.append "T" a) [] "A" none
        ⟨.found (2 ^ 53 + 1), true⟩).result := by
  have hn : normalizeBalance (2 ^ 53) = normalizeBalance (2 ^ 53 + 1) := by
    rw [normalizeBalance, normalizeBalance,
      show jsNumberOfNat (2 ^ 53) = 2 ^ 53 from by decide,
      show jsNumberOfNat (2 ^ 53 + 1) = 2 ^ 53 from by decide]
  have hn2 : normalizeBalance 9007199254740992 = normalizeBalance 9007199254740993 := by
    rw [show (9007199254740992 : Nat) = 2 ^ 53 by norm_num,
      show (9007199254740993 : Nat) = 2 ^ 53 + 1 by norm_num]
    exact hn
  refine ⟨hn, by decide, ?_⟩
  simp [getTokenBalance, mapGet, hn2]

/-- C9 witness: the amended theorem at concrete inputs. -/
theorem c9_witness :
    (getTokenBalance (fun a => String.append "T" a) [] "A" (some 1)
        ⟨.found 7500000, true⟩).result =
        some ((jsNumberOfNat 7500000 : ℚ) / 1000000, some "TA")
    ∧ normalizeBalance 5000000 = normalizeBalance 5000000
    ∧ ((monitorStep (fun a => String.append "T" a) ⟨.found 7500000, true, true⟩
        ⟨[(1, ["A"])], [("A", some 5)], [("A", ["TA"])]⟩ 1 "A").events).filter
        (isBalanceChangeFor 1) =
        (if (15 / 2 : ℚ) = 5 then []
         else [Event.balanceChange 1 "A" 5 (15 / 2) (15 / 2 - 5)])
    ∧ normalizeBalance (2 ^ 53) = normalizeBalance (2 ^ 53 + 1) := by
  have hnb : normalizeBalance 7500000 = 15 / 2 := by
    rw [normalizeBalance, show jsNumberOfNat 7500000 = 7500000 from by decide]
    norm_num
  have hres : (getTokenBalance (fun a => String.append "T" a) [("A", ["TA"])] "A"
      (some 1) ⟨.found 7500000, true⟩).result = some (15 / 2, some "TA") := by
    simp [getTokenBalance, mapGet, hnb, show String.append "T" "A" = "TA" from rfl]
  have h := c9_normalization (fun a => String.append "T" a) [] "A" (some 1)
    7500000 5000000 5000000 ⟨.found 7500000, true, true⟩
    ⟨[(1, ["A"])], [("A", some 5)], [("A", ["TA"])]⟩ 1 (15 / 2) 5 (some "TA")
    rfl hres (by simp [mapGet]) rfl
  simpa [show String.append "T" "A" = "TA" from rfl] using h

/-- C10 (amended): after successful validation, only a rejection of the
line-49 confirmation reply reaches the handler's catch: the subscriber
then gets the misleading invalid-address reply, the registry mutation is
kept (no rollback), and the seeding probe never runs. A rethrown fetch
error or a rejected account-created send inside the seeding probe is
swallowed by the probe's own catch instead: the handler continues
normally, stores a `null` balance, and sends *no* invalid-address
reply. -/
theorem c10_handler_catch (ata : Address → TokenAccount) (env : AddEnv)
    (s s2 s3 : BotState) (c : ChatId) (a : Address) (raw : Nat) (sOk : Bool)
    (hr : env.replyOk = false)
    (hk2 : ata a ∉ (mapGet s2.knownTokenAccounts a).getD []) :
    addHandler ata true env s c a =
        ({ userAddresses := mapSet s.userAddresses c
             (setAdd ((mapGet s.userAddresses c).getD []) a),
           lastBalances := s.lastBalances,
           knownTokenAccounts := s.knownTokenAccounts },
          [.replyInvalid c])
    ∧ addHandler ata true ⟨true, .found raw, false⟩ s2 c a =
        ({ userAddresses := mapSet s2.userAddresses c
             (setAdd ((mapGet s2.userAddresses c).getD []) a),
           lastBalances := mapSet s2.lastBalances a none,
           knownTokenAccounts := s2.knownTokenAccounts },
          [.replyAdded c a, .logFetch a, .logDetected a (ata a)])
    ∧ addHandler ata true ⟨true, .error, sOk⟩ s3 c a =
        ({ userAddresses := mapSet s3.userAddresses c
             (setAdd ((mapGet s3.userAddresses c).getD []) a),
           lastBalances := mapSet s3.lastBalances a none,
           knownTokenAccounts := s3.knownTokenAccounts },
          [.replyAdded c a, .logFetch a]) := by
  refine ⟨?_, ?_, ?_⟩
  · simp [addHandler, hr]
  · simp [addHandler, addSeed, getTokenBalance, hk2]
  · simp [addHandler, addSeed, getTokenBalance]

/-- C10 counterexample: the account-created send inside the seeding
probe rejects, yet the handler's catch is *not* reached — no
invalid-address reply is sent (contradicting the claim), and the store
records a `null` balance for the validly added address. -/
theorem c10_counterexample :
    addHandler (fun a => String.append "T" a) true ⟨true, .found 3000000, false⟩
        ⟨[], [], []⟩ 1 "A" =
      (⟨[(1, ["A"])], [("A", none)], []⟩,
        [.replyAdded 1 "A", .logFetch "A", .logDetected "A" "TA"])
    ∧ Event.replyInvalid 1 ∉ (addHandler (fun a => String.append "T" a) true
        ⟨true, .found 3000000, false⟩ ⟨[], [], []⟩ 1 "A").2 := by
  constructor <;>
    simp [addHandler, addSeed, getTokenBalance, mapGet, mapSet, setAdd,
      show String.append "T" "A" = "TA" from rfl]

/-- C10 witness: the amended theorem at concrete inputs. -/
theorem c10_witness :
    addHandler (fun a => String.append "T" a) true ⟨false, .notFound, true⟩
        ⟨[], [], []⟩ 1 "A" = (⟨[(1, ["A"])], [], []⟩, [.replyInvalid 1])
    ∧ addHandler (fun a => String.append "T" a) true ⟨true, .found 3000000, false⟩
        ⟨[], [], []⟩ 1 "A" =
        (⟨[(1, ["A"])], [("A", none)], []⟩,
          [.replyAdded 1 "A", .logFetch "A", .logDetected "A" "TA"])
    ∧ addHandler (fun a => String.append "T" a) true ⟨true, .error, true⟩
        ⟨[], [], []⟩ 1 "A" =
        (⟨[(1, ["A"])], [("A", none)], []⟩, [.replyAdded 1 "A", .logFetch "A"]) := by
  have h := c10_handler_catch (fun a => String.append "T" a) ⟨false, .notFound, true⟩
    ⟨[], [], []⟩ ⟨[], [], []⟩ ⟨[], [], []⟩ 1 "A" 3000000 true rfl (by simp [mapGet])
  simpa [mapGet, mapSet, setAdd, show String.append "T" "A" = "TA" from rfl] using h
